import Mathlib

/-!
Shallow embedding of the koe voice bot's command handler
(crates/koe/src/handler/command.rs) and of the spec-level contracts of its
collaborators (voice connection manager, speech queue, key-value stores).
Identifiers follow the Rust source where Lean allows it.
-/

namespace Koe

abbrev GuildId := Nat
abbrev UserId := Nat
abbrev ChannelId := Nat
abbrev MessageId := Nat

/-- Association-list lookup indexed by a decidable-equality key,
modelling map lookup (DashMap / redis hash get). -/
def mapLookup {κ α : Type} [DecidableEq κ] (k : κ) : List (κ × α) → Option α
  | [] => none
  | (k₂, v) :: rest => if k = k₂ then some v else mapLookup k rest

/-- Remove every binding of key `k`, modelling map removal. -/
def mapRemove {κ α : Type} [DecidableEq κ] (k : κ) : List (κ × α) → List (κ × α)
  | [] => []
  | (k₂, v) :: rest => if k = k₂ then mapRemove k rest else (k₂, v) :: mapRemove k rest

/-- Insert a binding, replacing any prior binding of the same key,
modelling `DashMap::insert`. -/
def mapInsert {κ α : Type} [DecidableEq κ] (k : κ) (v : α) (m : List (κ × α)) :
    List (κ × α) :=
  (k, v) :: mapRemove k m

/-- `ApplicationCommandInteractionDataOptionValue`: the resolved value of a
slash-command option; only the String and Number cases are inspected by the
source, all other variants collapse to `other`. -/
inductive OptionValue where
  | str : String → OptionValue
  | num : ℚ → OptionValue
  | other : OptionValue
deriving DecidableEq, Repr

/-- `ApplicationCommandInteractionDataOption`: name, optional resolved value,
and nested sub-options. -/
inductive DataOption where
  | mk : String → Option OptionValue → List DataOption → DataOption

def DataOption.name : DataOption → String
  | .mk n _ _ => n

def DataOption.resolved : DataOption → Option OptionValue
  | .mk _ r _ => r

def DataOption.options : DataOption → List DataOption
  | .mk _ _ o => o

/-- The parts of `ApplicationCommandInteraction` the handler reads:
`cmd.data.name`, `cmd.data.options`, `cmd.guild_id`, `cmd.user.id`,
`cmd.channel_id`. -/
structure Interaction where
  name : String
  options : List DataOption
  guild_id : Option GuildId
  user_id : UserId
  channel_id : ChannelId

structure DictAddOption where
  word : String
  read_as : String
deriving DecidableEq, Repr

structure DictRemoveOption where
  word : String
deriving DecidableEq, Repr

structure VoiceKindOption where
  kind : String
deriving DecidableEq, Repr

structure VoiceSpeedOption where
  speed : ℚ
deriving DecidableEq, Repr

structure VoicePitchOption where
  pitch : ℚ
deriving DecidableEq, Repr

/-- The closed `CommandKind` enum. -/
inductive CommandKind where
  | join
  | leave
  | dictAdd : DictAddOption → CommandKind
  | dictRemove : DictRemoveOption → CommandKind
  | dictView
  | voiceKind : VoiceKindOption → CommandKind
  | voiceSpeed : VoiceSpeedOption → CommandKind
  | voicePitch : VoicePitchOption → CommandKind
  | help
  | unknown
deriving DecidableEq, Repr

/-- `impl From<&ApplicationCommandInteraction> for CommandKind`
(command.rs lines 81-182), decoding the interaction once at the boundary. -/
def commandKindFrom (cmd : Interaction) : CommandKind :=
  match cmd.name with
  | "join" | "kjoin" => CommandKind.join
  | "leave" | "kleave" => CommandKind.leave
  | "dict" =>
    match cmd.options.get? 0 with
    | none => CommandKind.unknown
    | some option_dict =>
      match option_dict.name with
      | "add" =>
        match option_dict.options.get? 0 with
        | none => CommandKind.unknown
        | some option_word =>
          match option_dict.options.get? 1 with
          | none => CommandKind.unknown
          | some option_read_as =>
            match option_word.resolved with
            | some (OptionValue.str word) =>
              match option_read_as.resolved with
              | some (OptionValue.str read_as) =>
                CommandKind.dictAdd ⟨word, read_as⟩
              | _ => CommandKind.unknown
            | _ => CommandKind.unknown
      | "remove" =>
        match option_dict.options.get? 0 with
        | none => CommandKind.unknown
        | some option_word =>
          match option_word.resolved with
          | some (OptionValue.str word) => CommandKind.dictRemove ⟨word⟩
          | _ => CommandKind.unknown
      | "view" => CommandKind.dictView
      | _ => CommandKind.unknown
  | "voice" =>
    match cmd.options.get? 0 with
    | none => CommandKind.unknown
    | some option_voice =>
      match option_voice.name with
      | "kind" =>
        match option_voice.options.get? 0 with
        | none => CommandKind.unknown
        | some option_kind =>
          match option_kind.resolved with
          | some (OptionValue.str kind) => CommandKind.voiceKind ⟨kind⟩
          | _ => CommandKind.unknown
      | "speed" =>
        match option_voice.options.get? 0 with
        | none => CommandKind.unknown
        | some option_speed =>
          match option_speed.resolved with
          | some (OptionValue.num speed) => CommandKind.voiceSpeed ⟨speed⟩
          | _ => CommandKind.unknown
      | "pitch" =>
        match option_voice.options.get? 0 with
        | none => CommandKind.unknown
        | some option_pitch =>
          match option_pitch.resolved with
          | some (OptionValue.num pitch) => CommandKind.voicePitch ⟨pitch⟩
          | _ => CommandKind.unknown
      | _ => CommandKind.unknown
  | "help" => CommandKind.help
  | _ => CommandKind.unknown

/-- Modelled from the spec: the speech queue of utterances
(crates/koe/src/speech.rs is not under src/); only its pending items are
relevant here, each item identified by a numeric utterance id. -/
structure SpeechQueue where
  items : List Nat
deriving DecidableEq, Repr

/-- Modelled from the spec: `SpeechQueue::new` constructs a session queue
with an empty sequence of pending utterances (§4.2: "construct a new session
with an empty queue"). -/
def SpeechQueue.new : SpeechQueue := ⟨[]⟩

/-- `VoiceConnectionStatus`: the per-guild session stored in the
`VoiceConnectionStatusMap` (fields as constructed at command.rs 257-268). -/
structure VoiceConnectionStatus where
  bound_text_channel : ChannelId
  last_message_read : Option MessageId
  speech_queue : SpeechQueue
deriving DecidableEq, Repr

/-- `Guild` as read from the serenity cache: its display name and the
`voice_states` map `UserId → VoiceState`, of which only the optional
`channel_id` field is consulted. -/
structure Guild where
  name : String
  voice_states : List (UserId × Option ChannelId)

/-- Errors propagated through `anyhow::Result` by the handlers:
a platform rejection of connect/disconnect, or a guild missing from
the cache ("Failed to find guild in the cache"). -/
inductive HandlerError where
  | connectionError
  | cacheMiss
deriving DecidableEq, Repr

/-- Teardown/setup steps in the order the handler performs them;
`connectAttempt` marks the call into `voice_client.join`,
`disconnect` the call into `voice_client.leave`. -/
inductive Event where
  | connectAttempt : GuildId → ChannelId → Event
  | disconnect : GuildId → Event
  | registryInsert : GuildId → Event
  | registryRemove : GuildId → Event
deriving DecidableEq, Repr

/-- An embed as assembled by `handle_dict_view`. -/
structure Embed where
  title : String
  fields : List (String × String × Bool)
deriving DecidableEq, Repr

/-- `CommandResponse`. -/
inductive CommandResponse where
  | text : String → CommandResponse
  | embed : Embed → CommandResponse
deriving DecidableEq, Repr

/-- The per-command environment: the serenity guild cache and the platform's
disposition towards this command's connect/disconnect calls. -/
structure Env where
  cache : List (GuildId × Guild)
  connectOk : Bool
  disconnectOk : Bool

/-- Mutable state threaded through the handlers: the set of guilds in which
the bot holds a voice connection (owned by the voice client), the
`VoiceConnectionStatusMap` registry, and the redis-backed stores keyed by
stringified ids. -/
structure World where
  connected : List GuildId
  status_map : List (GuildId × VoiceConnectionStatus)
  dict : List (String × List (String × String))
  voice_kinds : List (String × String)
  voice_speeds : List (String × ℚ)
  voice_pitches : List (String × ℚ)

/-- Modelled from the spec: §4.6 `is_connected(guild_id) -> bool` of the
Voice Connection Manager (crates/koe/src/voice_client.rs is not under src/). -/
def VoiceClient.is_connected (connected : List GuildId) (guild_id : GuildId) : Bool :=
  guild_id ∈ connected

/-- Modelled from the spec: §4.6 `connect` — on success the bot holds a voice
connection in the guild; on platform rejection it fails with
`ConnectionError` and, per §7, leaves no connection dangling. -/
def VoiceClient.join (ok : Bool) (connected : List GuildId) (guild_id : GuildId) :
    Except HandlerError (List GuildId) :=
  if ok then
    Except.ok (if guild_id ∈ connected then connected else guild_id :: connected)
  else
    Except.error HandlerError.connectionError

/-- Modelled from the spec: §4.6 `disconnect` — on success the guild's voice
connection is released; on platform rejection it fails with `ConnectionError`
and the operation is aborted. -/
def VoiceClient.leave (ok : Bool) (connected : List GuildId) (guild_id : GuildId) :
    Except HandlerError (List GuildId) :=
  if ok then
    Except.ok (connected.filter (fun g => g ≠ guild_id))
  else
    Except.error HandlerError.connectionError

/-- Modelled from the spec: text sanitization is an external collaborator
(crates/koe/src/sanitize.rs is not under src/); its output is some escaped
form of its input, taken here as the input itself. -/
def sanitize_response (s : String) : String := s

/-- `get_user_voice_channel` (command.rs 490-506): look the guild up in the
cache (an error if absent), then the user's voice state, then its channel. -/
def get_user_voice_channel (cache : List (GuildId × Guild)) (guild_id : GuildId)
    (user_id : UserId) : Except HandlerError (Option ChannelId) :=
  match mapLookup guild_id cache with
  | none => Except.error HandlerError.cacheMiss
  | some guild => Except.ok ((mapLookup user_id guild.voice_states).bind id)

/-- `handle_join` (command.rs 233-271). Returns the world after the handler,
the connection/registry steps it performed in order, and its
`Result<CommandResponse>`. -/
def handle_join (env : Env) (w : World) (cmd : Interaction) :
    World × List Event × Except HandlerError CommandResponse :=
  match cmd.guild_id with
  | none => (w, [], Except.ok (CommandResponse.text "`/join`, `/kjoin` はサーバー内でのみ使えます。"))
  | some guild_id =>
    let user_id := cmd.user_id
    let text_channel_id := cmd.channel_id
    match get_user_voice_channel env.cache guild_id user_id with
    | Except.error e => (w, [], Except.error e)
    | Except.ok none =>
      (w, [], Except.ok (CommandResponse.text "ボイスチャンネルに接続してから `/join` を送信してください。"))
    | Except.ok (some voice_channel_id) =>
      match VoiceClient.join env.connectOk w.connected guild_id with
      | Except.error e =>
        (w, [Event.connectAttempt guild_id voice_channel_id], Except.error e)
      | Except.ok connected₂ =>
        ({ w with
            connected := connected₂
            status_map := mapInsert guild_id
              { bound_text_channel := text_channel_id
                last_message_read := none
                speech_queue := SpeechQueue.new } w.status_map },
         [Event.connectAttempt guild_id voice_channel_id, Event.registryInsert guild_id],
         Except.ok (CommandResponse.text "接続しました。"))

/-- `handle_leave` (command.rs 273-294): bail out when not connected,
otherwise `voice_client.leave` then `status_map.remove`. -/
def handle_leave (env : Env) (w : World) (cmd : Interaction) :
    World × List Event × Except HandlerError CommandResponse :=
  match cmd.guild_id with
  | none => (w, [], Except.ok (CommandResponse.text "`/leave`, `/kleave` はサーバー内でのみ使えます。"))
  | some guild_id =>
    if VoiceClient.is_connected w.connected guild_id then
      match VoiceClient.leave env.disconnectOk w.connected guild_id with
      | Except.error e => (w, [Event.disconnect guild_id], Except.error e)
      | Except.ok connected₂ =>
        ({ w with
            connected := connected₂
            status_map := mapRemove guild_id w.status_map },
         [Event.disconnect guild_id, Event.registryRemove guild_id],
         Except.ok (CommandResponse.text "切断しました。"))
    else
      (w, [], Except.ok (CommandResponse.text "どのボイスチャンネルにも接続していません。"))

/-- Responses of the dictionary store's insert. -/
inductive InsertResponse where
  | success
  | wordAlreadyExists
deriving DecidableEq, Repr

/-- Responses of the dictionary store's remove. -/
inductive RemoveResponse where
  | success
  | wordDoesNotExist
deriving DecidableEq, Repr

/-- Modelled from the spec: `koe_db::dict::insert` (koe-db crate is not under
src/; the spec treats the dictionary as simple key-value CRUD): register the
reading unless the word is already present. -/
def dictInsert (dict : List (String × List (String × String))) (guild_key word read_as : String) :
    List (String × List (String × String)) × InsertResponse :=
  let entries := (mapLookup guild_key dict).getD []
  match mapLookup word entries with
  | some _ => (dict, InsertResponse.wordAlreadyExists)
  | none => (mapInsert guild_key (entries ++ [(word, read_as)]) dict, InsertResponse.success)

/-- Modelled from the spec: `koe_db::dict::remove`: delete the word's entry
if present. -/
def dictDelete (dict : List (String × List (String × String))) (guild_key word : String) :
    List (String × List (String × String)) × RemoveResponse :=
  let entries := (mapLookup guild_key dict).getD []
  match mapLookup word entries with
  | some _ => (mapInsert guild_key (mapRemove word entries) dict, RemoveResponse.success)
  | none => (dict, RemoveResponse.wordDoesNotExist)

/-- `handle_dict_add` (command.rs 296-332). -/
def handle_dict_add (w : World) (cmd : Interaction) (option : DictAddOption) :
    World × List Event × Except HandlerError CommandResponse :=
  match cmd.guild_id with
  | none => (w, [], Except.ok (CommandResponse.text "`/dict add` はサーバー内でのみ使えます。"))
  | some guild_id =>
    match dictInsert w.dict (toString guild_id) option.word option.read_as with
    | (dict₂, InsertResponse.success) =>
      ({ w with dict := dict₂ }, [],
       Except.ok (CommandResponse.text
         (sanitize_response option.word ++ "の読み方を" ++ sanitize_response option.read_as
           ++ "として辞書に登録しました。")))
    | (dict₂, InsertResponse.wordAlreadyExists) =>
      ({ w with dict := dict₂ }, [],
       Except.ok (CommandResponse.text
         ("すでに" ++ sanitize_response option.word ++ "は辞書に登録されています。")))

/-- `handle_dict_remove` (command.rs 334-368). -/
def handle_dict_remove (w : World) (cmd : Interaction) (option : DictRemoveOption) :
    World × List Event × Except HandlerError CommandResponse :=
  match cmd.guild_id with
  | none => (w, [], Except.ok (CommandResponse.text "`/dict remove` はサーバー内でのみ使えます。"))
  | some guild_id =>
    match dictDelete w.dict (toString guild_id) option.word with
    | (dict₂, RemoveResponse.success) =>
      ({ w with dict := dict₂ }, [],
       Except.ok (CommandResponse.text
         ("辞書から" ++ sanitize_response option.word ++ "を削除しました。")))
    | (dict₂, RemoveResponse.wordDoesNotExist) =>
      ({ w with dict := dict₂ }, [],
       Except.ok (CommandResponse.text
         (sanitize_response option.word ++ "は辞書に登録されていません。")))

/-- `handle_dict_view` (command.rs 370-404). -/
def handle_dict_view (env : Env) (w : World) (cmd : Interaction) :
    World × List Event × Except HandlerError CommandResponse :=
  match cmd.guild_id with
  | none => (w, [], Except.ok (CommandResponse.text "`/dict view` はサーバー内でのみ使えます。"))
  | some guild_id =>
    let entries := (mapLookup (toString guild_id) w.dict).getD []
    let guild_name := ((mapLookup guild_id env.cache).map Guild.name).getD "サーバー"
    (w, [],
     Except.ok (CommandResponse.embed
       { title := "📕 " ++ guild_name ++ "の辞書"
         fields := entries.map (fun p => (p.1, sanitize_response p.2, false)) }))

/-- `handle_voice_kind` (command.rs 406-433): accept only kinds A-D, then
persist to the per-user store. -/
def handle_voice_kind (w : World) (cmd : Interaction) (option : VoiceKindOption) :
    World × List Event × Except HandlerError CommandResponse :=
  match option.kind with
  | "A" | "B" | "C" | "D" =>
    ({ w with voice_kinds := mapInsert (toString cmd.user_id) option.kind w.voice_kinds },
     [],
     Except.ok (CommandResponse.text
       ("声の種類を" ++ sanitize_response option.kind ++ "に設定しました。")))
  | _ => (w, [], Except.ok (CommandResponse.text "声の種類を認識できません。"))

/-- `handle_voice_speed` (command.rs 435-457): reject speeds outside
[0.25, 4.0], otherwise persist to the per-user store. -/
def handle_voice_speed (w : World) (cmd : Interaction) (option : VoiceSpeedOption) :
    World × List Event × Except HandlerError CommandResponse :=
  if option.speed < 1 / 4 ∨ 4 < option.speed then
    (w, [], Except.ok (CommandResponse.text "速度は 0.25 以上 4.0 以下の値を指定してください。"))
  else
    ({ w with voice_speeds := mapInsert (toString cmd.user_id) option.speed w.voice_speeds },
     [],
     Except.ok (CommandResponse.text ("声の速度を" ++ toString option.speed ++ "に設定しました。")))

/-- `handle_voice_pitch` (command.rs 459-481): reject pitches outside
[-20.0, 20.0], otherwise persist to the per-user store. -/
def handle_voice_pitch (w : World) (cmd : Interaction) (option : VoicePitchOption) :
    World × List Event × Except HandlerError CommandResponse :=
  if option.pitch < -20 ∨ 20 < option.pitch then
    (w, [], Except.ok (CommandResponse.text "ピッチは -20.0 以上 20.0 以下の値を指定してください。"))
  else
    ({ w with voice_pitches := mapInsert (toString cmd.user_id) option.pitch w.voice_pitches },
     [],
     Except.ok (CommandResponse.text ("声のピッチを" ++ toString option.pitch ++ "に設定しました。")))

/-- `handle_help` (command.rs 483-488). -/
def handle_help (w : World) :
    World × List Event × Except HandlerError CommandResponse :=
  (w, [],
   Except.ok (CommandResponse.text
     "使い方はこちらをご覧ください:\nhttps://github.com/ciffelia/koe/blob/main/README.md"))

/-- `execute_command` (command.rs 202-231): decode once into `CommandKind`,
dispatch, and map a handler `Err` to the internal-error text. -/
def execute_command (env : Env) (w : World) (cmd : Interaction) :
    World × List Event × CommandResponse :=
  let command_kind := commandKindFrom cmd
  let res : World × List Event × Except HandlerError CommandResponse :=
    match command_kind with
    | CommandKind.join => handle_join env w cmd
    | CommandKind.leave => handle_leave env w cmd
    | CommandKind.dictAdd option => handle_dict_add w cmd option
    | CommandKind.dictRemove option => handle_dict_remove w cmd option
    | CommandKind.dictView => handle_dict_view env w cmd
    | CommandKind.voiceKind option => handle_voice_kind w cmd option
    | CommandKind.voiceSpeed option => handle_voice_speed w cmd option
    | CommandKind.voicePitch option => handle_voice_pitch w cmd option
    | CommandKind.help => handle_help w
    | CommandKind.unknown =>
      (w, [], Except.ok (CommandResponse.text "エラー: コマンドを認識できません。"))
  match res with
  | (w₂, evs, Except.ok message) => (w₂, evs, message)
  | (w₂, evs, Except.error _) => (w₂, evs, CommandResponse.text "内部エラーが発生しました。")

/-- Operations driving the session lifecycle: each carries the environment
(cache contents, platform disposition) in effect when it runs. -/
inductive Op where
  | join : Env → Interaction → Op
  | leave : Env → Interaction → Op

/-- Apply one lifecycle operation to the world. -/
def stepOp (w : World) (op : Op) : World :=
  match op with
  | Op.join env cmd => (handle_join env w cmd).1
  | Op.leave env cmd => (handle_leave env w cmd).1

/-- Run a sequence of join/leave operations. -/
def runOps (w : World) (ops : List Op) : World :=
  ops.foldl stepOp w

/-- The registry/connection coupling: a session is registered for a guild
exactly when the bot holds a voice connection there. -/
def registryMatchesConnection (w : World) : Prop :=
  ∀ g : GuildId, g ∈ w.connected ↔ (mapLookup g w.status_map).isSome

/-- The world at process start: no connections, empty registry and stores. -/
def initialWorld : World :=
  { connected := []
    status_map := []
    dict := []
    voice_kinds := []
    voice_speeds := []
    voice_pitches := [] }

/-- `a` occurs in the list, strictly before any occurrence of `b`. -/
def precedes (a b : Event) : List Event → Bool
  | [] => false
  | e :: rest => if e = a then b ∈ rest else if e = b then false else precedes a b rest

/-- Modelled from the spec: one queued utterance paired with the latency, in
abstract scheduler steps, that its synthesis will take
(crates/koe/src/speech.rs is not under src/). -/
structure PendingItem where
  utterance : Nat
  latency : Nat
deriving DecidableEq, Repr

/-- Modelled from the spec: §4.4 state of the per-session playback worker:
the pending queue in enqueue order, the item whose synthesis is in flight
(with its remaining synthesis time), and the utterances already played, in
playback order. -/
structure WorkerState where
  queue : List PendingItem
  synthesizing : Option PendingItem
  played : List Nat
deriving DecidableEq, Repr

/-- Modelled from the spec: §4.4 one scheduler step of the worker loop:
an in-flight synthesis advances by one time unit; a finished synthesis is
handed to the playback sink and played to completion before anything else
happens; an idle worker with a non-empty queue dequeues the head and starts
its synthesis; an idle worker with an empty queue stays parked. Synthesis of
item i+1 never starts before item i has been played (§4.4 ordering
guarantee). -/
def tick (s : WorkerState) : WorkerState :=
  match s.synthesizing with
  | some item =>
    match item.latency with
    | Nat.succ k => { s with synthesizing := some ⟨item.utterance, k⟩ }
    | 0 => { s with synthesizing := none, played := s.played ++ [item.utterance] }
  | none =>
    match s.queue with
    | [] => s
    | item :: rest => { s with queue := rest, synthesizing := some item }

/-- Run the worker scheduler for `n` steps. -/
def runWorker : Nat → WorkerState → WorkerState
  | 0, s => s
  | Nat.succ n, s => runWorker n (tick s)

/-- Steps needed to fully drain a queue: each item costs one dequeue step,
its synthesis latency, and one playback step. -/
def sessionCost (queue : List PendingItem) : Nat :=
  (queue.map (fun item => item.latency + 2)).sum

/-! ### Concrete sample inputs -/

/-- A cache holding one guild in which user 7 sits in voice channel 42. -/
def cache₁ : List (GuildId × Guild) :=
  [(1, { name := "guild one", voice_states := [(7, some 42)] })]

/-- Environment in which the platform accepts connects and disconnects. -/
def env₁ : Env :=
  { cache := cache₁, connectOk := true, disconnectOk := true }

/-- Environment in which the platform rejects connect attempts. -/
def envConnectFail₁ : Env :=
  { cache := cache₁, connectOk := false, disconnectOk := true }

/-- Environment whose one guild has no user in any voice channel. -/
def envNoVoice₁ : Env :=
  { cache := [(1, { name := "guild one", voice_states := [] })]
    connectOk := true
    disconnectOk := true }

/-- A `/join` interaction issued from text channel 5 of guild 1 by user 7. -/
def joinCmd₁ : Interaction :=
  { name := "join", options := [], guild_id := some 1, user_id := 7, channel_id := 5 }

/-- A `/leave` interaction for guild 1. -/
def leaveCmd₁ : Interaction :=
  { name := "leave", options := [], guild_id := some 1, user_id := 7, channel_id := 5 }

/-- An interaction whose command name no arm of the decoder recognizes. -/
def unknownCmd₁ : Interaction :=
  { name := "frobnicate", options := [], guild_id := none, user_id := 7, channel_id := 5 }

/-- A world holding an active session and connection for guild 1. -/
def worldWithSession₁ : World :=
  { initialWorld with
      connected := [1]
      status_map := [(1, { bound_text_channel := 5
                           last_message_read := none
                           speech_queue := SpeechQueue.new })] }

/-! ### Helper lemmas -/

theorem mapLookup_mapRemove {κ α : Type} [DecidableEq κ] (k k₂ : κ) (m : List (κ × α)) :
    mapLookup k (mapRemove k₂ m) = if k = k₂ then none else mapLookup k m := by
  induction m with
  | nil => simp [mapLookup, mapRemove]
  | cons hd tl ih =>
    obtain ⟨k₃, v⟩ := hd
    simp only [mapRemove]
    by_cases h₂ : k₂ = k₃
    · subst h₂
      rw [if_pos rfl, ih]
      by_cases h₁ : k = k₂ <;> simp [mapLookup, h₁]
    · rw [if_neg h₂]
      by_cases h₁ : k = k₃
      · have hne : k ≠ k₂ := fun h => h₂ (h.symm.trans h₁)
        have hne₂ : ¬ k₃ = k₂ := fun h => h₂ h.symm
        simp [mapLookup, h₁, hne, hne₂]
      · simp [mapLookup, h₁, ih]

theorem mapLookup_mapInsert {κ α : Type} [DecidableEq κ] (k k₂ : κ) (v : α)
    (m : List (κ × α)) :
    mapLookup k (mapInsert k₂ v m) = if k = k₂ then some v else mapLookup k m := by
  by_cases h : k = k₂ <;> simp [mapInsert, mapLookup, mapLookup_mapRemove, h]

theorem runWorker_add (m n : Nat) (s : WorkerState) :
    runWorker (m + n) s = runWorker n (runWorker m s) := by
  induction m generalizing s with
  | zero => simp [runWorker]
  | succ m ih =>
    have : m + 1 + n = (m + n) + 1 := by omega
    rw [this]
    simp only [runWorker]
    exact ih (tick s)

theorem runWorker_countdown (L : Nat) (u : Nat) (q : List PendingItem) (p : List Nat) :
    runWorker (L + 1) ⟨q, some ⟨u, L⟩, p⟩ = ⟨q, none, p ++ [u]⟩ := by
  induction L with
  | zero => rfl
  | succ L ih =>
    show runWorker (L + 1) (tick ⟨q, some ⟨u, L + 1⟩, p⟩) = _
    have ht : tick ⟨q, some ⟨u, L + 1⟩, p⟩ = ⟨q, some ⟨u, L⟩, p⟩ := rfl
    rw [ht, ih]

theorem runWorker_one_item (item : PendingItem) (rest : List PendingItem) (p : List Nat) :
    runWorker (item.latency + 2) ⟨item :: rest, none, p⟩
      = ⟨rest, none, p ++ [item.utterance]⟩ := by
  have h : item.latency + 2 = 1 + (item.latency + 1) := by omega
  rw [h, runWorker_add]
  have h₁ : runWorker 1 ⟨item :: rest, none, p⟩ = ⟨rest, some item, p⟩ := rfl
  rw [h₁]
  have h₂ : (⟨rest, some item, p⟩ : WorkerState) = ⟨rest, some ⟨item.utterance, item.latency⟩, p⟩ := rfl
  rw [h₂, runWorker_countdown]

theorem runWorker_drains (queue : List PendingItem) (p : List Nat) :
    runWorker (sessionCost queue) ⟨queue, none, p⟩
      = ⟨[], none, p ++ queue.map PendingItem.utterance⟩ := by
  induction queue generalizing p with
  | nil => simp [sessionCost, runWorker]
  | cons item rest ih =>
    have hc : sessionCost (item :: rest) = (item.latency + 2) + sessionCost rest := by
      simp [sessionCost]
    rw [hc, runWorker_add, runWorker_one_item, ih]
    simp

theorem tick_played_extends (s : WorkerState) :
    ∃ d, (tick s).played = s.played ++ d := by
  obtain ⟨q, syn, p⟩ := s
  cases syn with
  | none =>
    cases q with
    | nil => exact ⟨[], by simp [tick]⟩
    | cons item rest => exact ⟨[], by simp [tick]⟩
  | some item =>
    obtain ⟨u, L⟩ := item
    cases L with
    | zero => exact ⟨[u], by simp [tick]⟩
    | succ k => exact ⟨[], by simp [tick]⟩

theorem runWorker_played_extends (n : Nat) (s : WorkerState) :
    ∃ d, (runWorker n s).played = s.played ++ d := by
  induction n generalizing s with
  | zero => exact ⟨[], by simp [runWorker]⟩
  | succ n ih =>
    obtain ⟨d₁, hd₁⟩ := tick_played_extends s
    obtain ⟨d₂, hd₂⟩ := ih (tick s)
    refine ⟨d₁ ++ d₂, ?_⟩
    show (runWorker n (tick s)).played = _
    rw [hd₂, hd₁, List.append_assoc]

theorem handle_join_success_eq (env : Env) (w : World) (cmd : Interaction)
    (guild_id : GuildId) (v : ChannelId)
    (hg : cmd.guild_id = some guild_id)
    (hv : get_user_voice_channel env.cache guild_id cmd.user_id = Except.ok (some v))
    (hok : env.connectOk = true) :
    handle_join env w cmd =
      ({ w with
          connected := if guild_id ∈ w.connected then w.connected else guild_id :: w.connected
          status_map := mapInsert guild_id
            { bound_text_channel := cmd.channel_id
              last_message_read := none
              speech_queue := SpeechQueue.new } w.status_map },
       [Event.connectAttempt guild_id v, Event.registryInsert guild_id],
       Except.ok (CommandResponse.text "接続しました。")) := by
  simp [handle_join, hg, hv, VoiceClient.join, hok]

theorem handle_join_connect_fail_eq (env : Env) (w : World) (cmd : Interaction)
    (guild_id : GuildId) (v : ChannelId)
    (hg : cmd.guild_id = some guild_id)
    (hv : get_user_voice_channel env.cache guild_id cmd.user_id = Except.ok (some v))
    (hok : env.connectOk = false) :
    handle_join env w cmd =
      (w, [Event.connectAttempt guild_id v], Except.error HandlerError.connectionError) := by
  simp [handle_join, hg, hv, VoiceClient.join, hok]

theorem handle_join_no_channel_eq (env : Env) (w : World) (cmd : Interaction)
    (guild_id : GuildId)
    (hg : cmd.guild_id = some guild_id)
    (hv : get_user_voice_channel env.cache guild_id cmd.user_id = Except.ok none) :
    handle_join env w cmd =
      (w, [],
       Except.ok (CommandResponse.text "ボイスチャンネルに接続してから `/join` を送信してください。")) := by
  simp [handle_join, hg, hv]

theorem handle_leave_connected_eq (env : Env) (w : World) (cmd : Interaction)
    (guild_id : GuildId)
    (hg : cmd.guild_id = some guild_id)
    (hc : guild_id ∈ w.connected)
    (hok : env.disconnectOk = true) :
    handle_leave env w cmd =
      ({ w with
          connected := w.connected.filter (fun g => g ≠ guild_id)
          status_map := mapRemove guild_id w.status_map },
       [Event.disconnect guild_id, Event.registryRemove guild_id],
       Except.ok (CommandResponse.text "切断しました。")) := by
  simp [handle_leave, hg, VoiceClient.is_connected, hc, VoiceClient.leave, hok]

theorem handle_leave_not_connected_eq (env : Env) (w : World) (cmd : Interaction)
    (guild_id : GuildId)
    (hg : cmd.guild_id = some guild_id)
    (hc : guild_id ∉ w.connected) :
    handle_leave env w cmd =
      (w, [], Except.ok (CommandResponse.text "どのボイスチャンネルにも接続していません。")) := by
  simp [handle_leave, hg, VoiceClient.is_connected, hc]

theorem handle_leave_disconnect_fail_eq (env : Env) (w : World) (cmd : Interaction)
    (guild_id : GuildId)
    (hg : cmd.guild_id = some guild_id)
    (hc : guild_id ∈ w.connected)
    (hok : env.disconnectOk = false) :
    handle_leave env w cmd =
      (w, [Event.disconnect guild_id], Except.error HandlerError.connectionError) := by
  simp [handle_leave, hg, VoiceClient.is_connected, hc, VoiceClient.leave, hok]

theorem handle_join_preserves (env : Env) (cmd : Interaction) (w : World)
    (hinv : registryMatchesConnection w) :
    registryMatchesConnection (handle_join env w cmd).1 := by
  cases hg : cmd.guild_id with
  | none => simpa [handle_join, hg] using hinv
  | some guild_id =>
    cases hv : get_user_voice_channel env.cache guild_id cmd.user_id with
    | error e => simpa [handle_join, hg, hv] using hinv
    | ok vopt =>
      cases vopt with
      | none => rw [handle_join_no_channel_eq env w cmd guild_id hg hv]; exact hinv
      | some v =>
        cases hok : env.connectOk with
        | false =>
          rw [handle_join_connect_fail_eq env w cmd guild_id v hg hv hok]
          exact hinv
        | true =>
          rw [handle_join_success_eq env w cmd guild_id v hg hv hok]
          intro g
          simp only [mapLookup_mapInsert]
          by_cases hgg : g = guild_id
          · subst hgg
            simp only [if_pos rfl, Option.isSome_some, iff_true]
            by_cases hmem : g ∈ w.connected
            · simp [hmem]
            · simp [hmem]
          · rw [if_neg hgg]
            by_cases hmem : guild_id ∈ w.connected
            · simp only [if_pos hmem]
              exact hinv g
            · simp only [if_neg hmem, List.mem_cons]
              constructor
              · rintro (h | h)
                · exact absurd h hgg
                · exact (hinv g).1 h
              · intro h
                exact Or.inr ((hinv g).2 h)

theorem handle_leave_preserves (env : Env) (cmd : Interaction) (w : World)
    (hinv : registryMatchesConnection w) :
    registryMatchesConnection (handle_leave env w cmd).1 := by
  cases hg : cmd.guild_id with
  | none => simpa [handle_leave, hg] using hinv
  | some guild_id =>
    by_cases hc : guild_id ∈ w.connected
    · cases hok : env.disconnectOk with
      | false =>
        rw [handle_leave_disconnect_fail_eq env w cmd guild_id hg hc hok]
        exact hinv
      | true =>
        rw [handle_leave_connected_eq env w cmd guild_id hg hc hok]
        intro g
        simp only [mapLookup_mapRemove, List.mem_filter]
        by_cases hgg : g = guild_id
        · subst hgg
          simp
        · simp only [if_neg hgg]
          constructor
          · rintro ⟨hmem, _⟩
            exact (hinv g).1 hmem
          · intro h
            exact ⟨(hinv g).2 h, by simp [hgg]⟩
    · rw [handle_leave_not_connected_eq env w cmd guild_id hg hc]
      exact hinv

theorem runOps_preserves (ops : List Op) (w : World)
    (hinv : registryMatchesConnection w) :
    registryMatchesConnection (runOps w ops) := by
  induction ops generalizing w with
  | nil => exact hinv
  | cons op rest ih =>
    have h₁ : runOps w (op :: rest) = runOps (stepOp w op) rest := rfl
    rw [h₁]
    apply ih
    cases op with
    | join env cmd => exact handle_join_preserves env cmd w hinv
    | leave env cmd => exact handle_leave_preserves env cmd w hinv

theorem initialWorld_inv : registryMatchesConnection initialWorld := by
  intro g
  simp [initialWorld, mapLookup]

theorem runWorker_idle (n : Nat) (p : List Nat) :
    runWorker n ⟨[], none, p⟩ = ⟨[], none, p⟩ := by
  induction n with
  | zero => rfl
  | succ n ih =>
    show runWorker n (tick ⟨[], none, p⟩) = _
    have ht : tick (⟨[], none, p⟩ : WorkerState) = ⟨[], none, p⟩ := rfl
    rw [ht, ih]

/-! ### Claim theorems -/

/-- Claim C1: for every sequence of enqueued utterances and every assignment
of per-item synthesis latencies, running the session worker to completion
plays the utterances in exactly the enqueue order, and at no intermediate
step is the played sequence anything but a prefix of that order — playback
is never reordered by synthesis completion time. -/
theorem fifo_playback (queue : List PendingItem) (n : Nat) :
    runWorker (sessionCost queue) ⟨queue, none, []⟩
        = ⟨[], none, queue.map PendingItem.utterance⟩
    ∧ ∃ t, queue.map PendingItem.utterance
        = (runWorker n ⟨queue, none, []⟩).played ++ t := by
  have hfull : runWorker (sessionCost queue) ⟨queue, none, []⟩
      = ⟨[], none, queue.map PendingItem.utterance⟩ := by
    have h := runWorker_drains queue []
    simpa using h
  refine ⟨hfull, ?_⟩
  by_cases hn : n ≤ sessionCost queue
  · have hsplit : sessionCost queue = n + (sessionCost queue - n) := by omega
    obtain ⟨d, hd⟩ :=
      runWorker_played_extends (sessionCost queue - n) (runWorker n ⟨queue, none, []⟩)
    refine ⟨d, ?_⟩
    have hcat : (runWorker (sessionCost queue) ⟨queue, none, []⟩).played
        = (runWorker n ⟨queue, none, []⟩).played ++ d := by
      rw [hsplit, runWorker_add]
      exact hd
    rw [hfull] at hcat
    exact hcat
  · refine ⟨[], ?_⟩
    have hsplit : n = sessionCost queue + (n - sessionCost queue) := by omega
    have hrun : runWorker n ⟨queue, none, []⟩
        = runWorker (n - sessionCost queue)
            (runWorker (sessionCost queue) ⟨queue, none, []⟩) := by
      rw [← runWorker_add, ← hsplit]
    rw [hrun, hfull, runWorker_idle]
    simp

/-- Claim C2: starting from the initial world, after any sequence of join
and leave operations a session is registered for guild G exactly when the
bot holds a voice connection in G. -/
theorem session_iff_connection (ops : List Op) :
    registryMatchesConnection (runOps initialWorld ops) :=
  runOps_preserves ops initialWorld initialWorld_inv

/-- Claim C3 (counterexample): on a concrete leave of guild 1 with an
active session, the teardown steps are the platform disconnect followed by
the registry removal, so the registry removal does not precede the
disconnect as the claim requires. -/
theorem leave_order_counterexample :
    (handle_leave env₁ worldWithSession₁ leaveCmd₁).2.1
        = [Event.disconnect 1, Event.registryRemove 1]
    ∧ precedes (Event.registryRemove 1) (Event.disconnect 1)
        ((handle_leave env₁ worldWithSession₁ leaveCmd₁).2.1) = false := by
  constructor
  · rfl
  · rfl

/-- Claim C3 (amended): for every leave operation on a guild with an active
connection whose disconnect the platform accepts, the platform connection
is closed via the voice client first, and only afterwards is the session
removed from the Registry. -/
theorem leave_disconnect_then_remove (env : Env) (w : World) (cmd : Interaction)
    (g : GuildId)
    (hg : cmd.guild_id = some g)
    (hc : g ∈ w.connected)
    (hok : env.disconnectOk = true) :
    (handle_leave env w cmd).2.1 = [Event.disconnect g, Event.registryRemove g]
    ∧ precedes (Event.disconnect g) (Event.registryRemove g)
        ((handle_leave env w cmd).2.1) = true
    ∧ (handle_leave env w cmd).1.status_map = mapRemove g w.status_map := by
  rw [handle_leave_connected_eq env w cmd g hg hc hok]
  refine ⟨rfl, ?_, rfl⟩
  simp [precedes]

/-- Witness for the amended C3 at a concrete leave of guild 1. -/
theorem leave_disconnect_then_remove_witness :
    (handle_leave env₁ worldWithSession₁ leaveCmd₁).2.1
        = [Event.disconnect 1, Event.registryRemove 1]
    ∧ precedes (Event.disconnect 1) (Event.registryRemove 1)
        ((handle_leave env₁ worldWithSession₁ leaveCmd₁).2.1) = true
    ∧ (handle_leave env₁ worldWithSession₁ leaveCmd₁).1.status_map
        = mapRemove 1 worldWithSession₁.status_map :=
  leave_disconnect_then_remove env₁ worldWithSession₁ leaveCmd₁ 1 rfl (by simp [worldWithSession₁]) rfl

/-- Claim C4: a join that acquires the voice connection registers a session
with an empty queue, no last-read message, and the issuing text channel as
bound channel, replacing any prior session for the guild, and reports
success. -/
theorem join_success_registers_session (env : Env) (w : World) (cmd : Interaction)
    (g : GuildId) (v : ChannelId)
    (hg : cmd.guild_id = some g)
    (hv : get_user_voice_channel env.cache g cmd.user_id = Except.ok (some v))
    (hok : env.connectOk = true) :
    handle_join env w cmd =
      ({ w with
          connected := if g ∈ w.connected then w.connected else g :: w.connected
          status_map := mapInsert g
            { bound_text_channel := cmd.channel_id
              last_message_read := none
              speech_queue := SpeechQueue.new } w.status_map },
       [Event.connectAttempt g v, Event.registryInsert g],
       Except.ok (CommandResponse.text "接続しました。"))
    ∧ mapLookup g (handle_join env w cmd).1.status_map
        = some { bound_text_channel := cmd.channel_id
                 last_message_read := none
                 speech_queue := ⟨[]⟩ } := by
  have h := handle_join_success_eq env w cmd g v hg hv hok
  refine ⟨h, ?_⟩
  rw [h]
  simp [mapLookup_mapInsert, SpeechQueue.new]

/-- Witness for C4: joining guild 1 from an already-populated world still
yields the freshly constructed session. -/
theorem join_success_registers_session_witness :
    mapLookup 1 (handle_join env₁ worldWithSession₁ joinCmd₁).1.status_map
      = some { bound_text_channel := joinCmd₁.channel_id
               last_message_read := none
               speech_queue := ⟨[]⟩ } :=
  (join_success_registers_session env₁ worldWithSession₁ joinCmd₁ 1 42 rfl rfl rfl).2

/-- Claim C5: a join whose connect the platform rejects aborts with the
user-visible failure text and leaves the world, in particular the registry,
unchanged. -/
theorem join_connection_error_aborts (env : Env) (w : World) (cmd : Interaction)
    (g : GuildId) (v : ChannelId)
    (hk : commandKindFrom cmd = CommandKind.join)
    (hg : cmd.guild_id = some g)
    (hv : get_user_voice_channel env.cache g cmd.user_id = Except.ok (some v))
    (hok : env.connectOk = false) :
    handle_join env w cmd
        = (w, [Event.connectAttempt g v], Except.error HandlerError.connectionError)
    ∧ execute_command env w cmd
        = (w, [Event.connectAttempt g v], CommandResponse.text "内部エラーが発生しました。") := by
  have h := handle_join_connect_fail_eq env w cmd g v hg hv hok
  refine ⟨h, ?_⟩
  simp [execute_command, hk, h]

/-- Witness for C5 at a concrete rejected join of guild 1. -/
theorem join_connection_error_aborts_witness :
    execute_command envConnectFail₁ initialWorld joinCmd₁
      = (initialWorld, [Event.connectAttempt 1 42],
         CommandResponse.text "内部エラーが発生しました。") :=
  (join_connection_error_aborts envConnectFail₁ initialWorld joinCmd₁ 1 42 rfl rfl rfl rfl).2

/-- Claim C6: a leave on a guild with no registered session (in a world
where registry and connections agree) reports the not-connected outcome
and leaves the world unchanged. -/
theorem leave_without_session_noop (env : Env) (w : World) (cmd : Interaction)
    (g : GuildId)
    (hg : cmd.guild_id = some g)
    (hns : mapLookup g w.status_map = none)
    (hinv : registryMatchesConnection w) :
    handle_leave env w cmd
      = (w, [], Except.ok (CommandResponse.text "どのボイスチャンネルにも接続していません。")) := by
  have hc : g ∉ w.connected := by
    intro hmem
    have hs := (hinv g).1 hmem
    rw [hns] at hs
    simp at hs
  exact handle_leave_not_connected_eq env w cmd g hg hc

/-- Witness for C6: leaving guild 1 at boot time is a reported no-op. -/
theorem leave_without_session_noop_witness :
    handle_leave env₁ initialWorld leaveCmd₁
      = (initialWorld, [],
         Except.ok (CommandResponse.text "どのボイスチャンネルにも接続していません。")) :=
  leave_without_session_noop env₁ initialWorld leaveCmd₁ 1 rfl rfl initialWorld_inv

/-- Claim C7: a voice-speed value is persisted to the per-user store exactly
when it lies in [0.25, 4.0], and a voice-pitch value exactly when it lies in
[-20.0, 20.0]; out-of-range values are rejected with a message and leave the
store untouched. -/
theorem voice_params_persist_iff_in_range (w : World) (cmd : Interaction)
    (s : VoiceSpeedOption) (p : VoicePitchOption) :
    (1 / 4 ≤ s.speed → s.speed ≤ 4 →
      handle_voice_speed w cmd s =
        ({ w with voice_speeds := mapInsert (toString cmd.user_id) s.speed w.voice_speeds },
         [],
         Except.ok (CommandResponse.text ("声の速度を" ++ toString s.speed ++ "に設定しました。"))))
    ∧ (¬ (1 / 4 ≤ s.speed ∧ s.speed ≤ 4) →
      handle_voice_speed w cmd s =
        (w, [], Except.ok (CommandResponse.text "速度は 0.25 以上 4.0 以下の値を指定してください。")))
    ∧ (-20 ≤ p.pitch → p.pitch ≤ 20 →
      handle_voice_pitch w cmd p =
        ({ w with voice_pitches := mapInsert (toString cmd.user_id) p.pitch w.voice_pitches },
         [],
         Except.ok (CommandResponse.text ("声のピッチを" ++ toString p.pitch ++ "に設定しました。"))))
    ∧ (¬ (-20 ≤ p.pitch ∧ p.pitch ≤ 20) →
      handle_voice_pitch w cmd p =
        (w, [], Except.ok (CommandResponse.text "ピッチは -20.0 以上 20.0 以下の値を指定してください。"))) := by
  refine ⟨?_, ?_, ?_, ?_⟩
  · intro h₁ h₂
    have hcond : ¬ (s.speed < 1 / 4 ∨ 4 < s.speed) := by
      push_neg
      exact ⟨h₁, h₂⟩
    unfold handle_voice_speed
    rw [if_neg hcond]
  · intro h
    have hcond : s.speed < 1 / 4 ∨ 4 < s.speed := by
      by_contra hc
      push_neg at hc
      exact h ⟨hc.1, hc.2⟩
    unfold handle_voice_speed
    rw [if_pos hcond]
  · intro h₁ h₂
    have hcond : ¬ (p.pitch < -20 ∨ 20 < p.pitch) := by
      push_neg
      exact ⟨h₁, h₂⟩
    unfold handle_voice_pitch
    rw [if_neg hcond]
  · intro h
    have hcond : p.pitch < -20 ∨ 20 < p.pitch := by
      by_contra hc
      push_neg at hc
      exact h ⟨hc.1, hc.2⟩
    unfold handle_voice_pitch
    rw [if_pos hcond]

/-- Witness for C7: speed 1 is stored; pitch 30 is rejected unchanged. -/
theorem voice_params_persist_iff_in_range_witness :
    handle_voice_speed initialWorld joinCmd₁ ⟨1⟩ =
      ({ initialWorld with
          voice_speeds := mapInsert (toString joinCmd₁.user_id) (1 : ℚ) initialWorld.voice_speeds },
       [],
       Except.ok (CommandResponse.text ("声の速度を" ++ toString (1 : ℚ) ++ "に設定しました。")))
    ∧ handle_voice_pitch initialWorld joinCmd₁ ⟨30⟩ =
      (initialWorld, [],
       Except.ok (CommandResponse.text "ピッチは -20.0 以上 20.0 以下の値を指定してください。")) :=
  ⟨(voice_params_persist_iff_in_range initialWorld joinCmd₁ ⟨1⟩ ⟨30⟩).1
      (by norm_num) (by norm_num),
   (voice_params_persist_iff_in_range initialWorld joinCmd₁ ⟨1⟩ ⟨30⟩).2.2.2
      (by norm_num)⟩

/-- Claim C8: decoding is a closed total function into `CommandKind`: an
unrecognized name, a missing subcommand or option, and an option of the
wrong value type all decode to `unknown`, and the executor answers an
`unknown` command with the parse-error message instead of failing. -/
theorem command_decode_closed_enum :
    (∀ cmd : Interaction,
      cmd.name ∉ ["join", "kjoin", "leave", "kleave", "dict", "voice", "help"] →
      commandKindFrom cmd = CommandKind.unknown)
    ∧ (∀ cmd : Interaction,
      cmd.name = "dict" ∨ cmd.name = "voice" → cmd.options = [] →
      commandKindFrom cmd = CommandKind.unknown)
    ∧ (∀ cmd : Interaction, ∀ sub : DataOption,
      cmd.name = "voice" → cmd.options = [sub] →
      sub.name = "kind" ∨ sub.name = "speed" ∨ sub.name = "pitch" →
      sub.options = [] →
      commandKindFrom cmd = CommandKind.unknown)
    ∧ (∀ cmd : Interaction, ∀ sub v : DataOption, ∀ q : ℚ,
      cmd.name = "voice" → cmd.options = [sub] → sub.name = "kind" →
      sub.options = [v] → v.resolved = some (OptionValue.num q) →
      commandKindFrom cmd = CommandKind.unknown)
    ∧ (∀ env : Env, ∀ w : World, ∀ cmd : Interaction,
      commandKindFrom cmd = CommandKind.unknown →
      execute_command env w cmd
        = (w, [], CommandResponse.text "エラー: コマンドを認識できません。")) := by
  refine ⟨?_, ?_, ?_, ?_, ?_⟩
  · intro cmd h
    unfold commandKindFrom
    split <;> simp_all
  · intro cmd hname hopts
    rcases hname with hn | hn <;> simp [commandKindFrom, hn, hopts, List.get?]
  · intro cmd sub hn hopts hsub hsubopts
    rcases hsub with h | h | h <;>
      simp [commandKindFrom, hn, hopts, h, hsubopts]
  · intro cmd sub v q hn hopts hsubname hsubopts hres
    simp [commandKindFrom, hn, hopts, hsubname, hsubopts, hres]
  · intro env w cmd h
    simp [execute_command, h]

/-- Witness for C8: a made-up command name decodes to `unknown` and the
executor answers it with the parse-error text. -/
theorem command_decode_closed_enum_witness :
    commandKindFrom unknownCmd₁ = CommandKind.unknown
    ∧ execute_command env₁ initialWorld unknownCmd₁
        = (initialWorld, [], CommandResponse.text "エラー: コマンドを認識できません。") :=
  ⟨command_decode_closed_enum.1 unknownCmd₁ (by decide),
   command_decode_closed_enum.2.2.2.2 env₁ initialWorld unknownCmd₁
     (command_decode_closed_enum.1 unknownCmd₁ (by decide))⟩

/-- Claim C9: a join issued by a user who is in no voice channel of the
guild yields the guidance message, performs no connect attempt, and leaves
the world, in particular the registry, unchanged. -/
theorem join_without_voice_channel_noop (env : Env) (w : World) (cmd : Interaction)
    (g : GuildId)
    (hg : cmd.guild_id = some g)
    (hv : get_user_voice_channel env.cache g cmd.user_id = Except.ok none) :
    handle_join env w cmd =
      (w, [],
       Except.ok (CommandResponse.text "ボイスチャンネルに接続してから `/join` を送信してください。"))
    ∧ ∀ gc : GuildId, ∀ c : ChannelId,
        Event.connectAttempt gc c ∉ (handle_join env w cmd).2.1 := by
  have h := handle_join_no_channel_eq env w cmd g hg hv
  refine ⟨h, ?_⟩
  intro gc c
  rw [h]
  simp

/-- Witness for C9: user 7 is in no voice channel, so the join is a guided
no-op. -/
theorem join_without_voice_channel_noop_witness :
    handle_join envNoVoice₁ initialWorld joinCmd₁ =
      (initialWorld, [],
       Except.ok (CommandResponse.text "ボイスチャンネルに接続してから `/join` を送信してください。")) :=
  (join_without_voice_channel_noop envNoVoice₁ initialWorld joinCmd₁ 1 rfl rfl).1

/-- Claim C10: a voice-kind value is persisted to the per-user store exactly
when it is one of "A", "B", "C", "D"; any other kind is rejected with a
message and the store is untouched. -/
theorem voice_kind_persist_iff_known (w : World) (cmd : Interaction)
    (option : VoiceKindOption) :
    (option.kind ∈ ["A", "B", "C", "D"] →
      handle_voice_kind w cmd option =
        ({ w with voice_kinds := mapInsert (toString cmd.user_id) option.kind w.voice_kinds },
         [],
         Except.ok (CommandResponse.text
           ("声の種類を" ++ sanitize_response option.kind ++ "に設定しました。"))))
    ∧ (option.kind ∉ ["A", "B", "C", "D"] →
      handle_voice_kind w cmd option =
        (w, [], Except.ok (CommandResponse.text "声の種類を認識できません。"))) := by
  constructor
  · intro h
    obtain ⟨k⟩ := option
    simp only [List.mem_cons, List.mem_singleton] at h
    rcases h with h | h | h | (h | h)
    · subst h; rfl
    · subst h; rfl
    · subst h; rfl
    · subst h; rfl
    · simp at h
  · intro h
    unfold handle_voice_kind
    split <;> simp_all

/-- Witness for C10: kind "B" is stored; kind "Z" is rejected unchanged. -/
theorem voice_kind_persist_iff_known_witness :
    handle_voice_kind initialWorld joinCmd₁ ⟨"B"⟩ =
      ({ initialWorld with
          voice_kinds := mapInsert (toString joinCmd₁.user_id) "B" initialWorld.voice_kinds },
       [],
       Except.ok (CommandResponse.text ("声の種類を" ++ sanitize_response "B" ++ "に設定しました。")))
    ∧ handle_voice_kind initialWorld joinCmd₁ ⟨"Z"⟩ =
      (initialWorld, [], Except.ok (CommandResponse.text "声の種類を認識できません。")) :=
  ⟨(voice_kind_persist_iff_known initialWorld joinCmd₁ ⟨"B"⟩).1 (by decide),
   (voice_kind_persist_iff_known initialWorld joinCmd₁ ⟨"Z"⟩).2 (by decide)⟩

end Koe
